import Mathlib

/-!
Verification of the PebbleOS settings synchronization layer:
the whitelist-filtered settings BlobDB adapter
(src/fw/services/normal/blob_db/settings_blob_db.c) and the prefs sync
coordinator (src/fw/shell/normal/prefs_sync.c), shallowly embedded in Lean.

The backing SettingsFile (settings_file.c) is not part of the sources; its
operations are modelled from the specification of the Record Store interface
(per-record key bytes, value bytes, last-modified timestamp, dirty flag;
get / set / delete / mark-synced by key; iteration with early stop).
-/

set_option autoImplicit false

namespace PebbleSync

/-- Modelled from the spec: the `status_t` error taxonomy (status_codes.h is
not among the sources): success, the no-action-required success signal, and
the failure codes used by this layer, with `eError` standing for any other
backing-store failure cause. -/
inductive Status where
  | sSuccess
  | sNoActionRequired
  | eInternal
  | eInvalidOperation
  | eDoesNotExist
  | eBusy
  | eError (code : Nat)
  deriving DecidableEq, Repr

/-- `FAILED(s)`: every code other than the two success codes is a failure. -/
def Status.failed : Status → Bool
  | .sSuccess => false
  | .sNoActionRequired => false
  | _ => true

/-- Byte sequence of a C string literal, without the terminating NUL. -/
def strBytes (s : String) : List Nat := s.toList.map Char.toNat

/-- The settings whitelist `s_syncable_settings` from settings_blob_db.c
(the two activity entries are present when CAPABILITY_HAS_HEALTH_TRACKING
is set; they are included here). -/
def s_syncable_settings : List String :=
  [ "clock24h", "timezoneSource", "automaticTimezoneID",
    "unitsDistance", "textStyle",
    "lightEnabled", "lightAmbientSensorEnabled", "lightTimeoutMs",
    "lightIntensity", "lightMotion", "lightAmbientThreshold",
    "langEnglish",
    "watchface", "qlUp", "qlDown", "qlSelect", "qlBack", "qlSetupOpened",
    "activityPreferences", "activityHealthAppOpened",
    "workerId" ]

/-- `prv_is_syncable` from settings_blob_db.c: a key is syncable when, for
some whitelist entry, `key_len == strlen(entry) + 1` (the NUL terminator
included) and the key bytes equal the entry bytes followed by the NUL. -/
def prv_is_syncable (key : List Nat) : Bool :=
  s_syncable_settings.any (fun name =>
    let nameZ := strBytes name ++ [0]
    key.length == nameZ.length && key == nameZ)

/-- Modelled from the spec: one Record Store record of settings_file.c —
key bytes, value bytes, last-modified timestamp, dirty flag. -/
structure SettingsRecord where
  key : List Nat
  val : List Nat
  last_modified : Nat
  dirty : Bool
  deriving DecidableEq, Repr

/-- Modelled from the spec: the open settings file, a sequence of records in
the backing store's iteration order. -/
structure SettingsFile where
  records : List SettingsRecord
  deriving DecidableEq, Repr

/-- Modelled from the spec: `settings_file_get` returns the value stored
under the key, or the not-found indication. -/
def settings_file_get (f : SettingsFile) (key : List Nat) :
    Except Status (List Nat) :=
  match f.records.find? (fun r => r.key == key) with
  | some r => .ok r.val
  | none => .error .eDoesNotExist

/-- Modelled from the spec: `settings_file_get_len` returns the stored
value's length, or the not-found indication. -/
def settings_file_get_len (f : SettingsFile) (key : List Nat) :
    Except Status Nat :=
  match f.records.find? (fun r => r.key == key) with
  | some r => .ok r.val.length
  | none => .error .eDoesNotExist

/-- Modelled from the spec: `settings_file_set` upserts — an existing record
gets the new value, a refreshed timestamp and the dirty flag set; an absent
key creates a fresh dirty record. -/
def settings_file_set (f : SettingsFile) (key v : List Nat) (now : Nat) :
    Status × SettingsFile :=
  if f.records.any (fun r => r.key == key) then
    (.sSuccess, ⟨f.records.map (fun r =>
      if r.key == key then
        { r with val := v, last_modified := now, dirty := true }
      else r)⟩)
  else
    (.sSuccess, ⟨f.records ++ [⟨key, v, now, true⟩]⟩)

/-- Modelled from the spec: `settings_file_delete` removes the record. -/
def settings_file_delete (f : SettingsFile) (key : List Nat) :
    Status × SettingsFile :=
  (.sSuccess, ⟨f.records.filter (fun r => !(r.key == key))⟩)

/-- Modelled from the spec: `settings_file_mark_synced` clears the dirty
flag of the record, failing when the key is absent. -/
def settings_file_mark_synced (f : SettingsFile) (key : List Nat) :
    Status × SettingsFile :=
  if f.records.any (fun r => r.key == key) then
    (.sSuccess, ⟨f.records.map (fun r =>
      if r.key == key then { r with dirty := false } else r)⟩)
  else
    (.eDoesNotExist, f)

/-- Modelled from the spec: `settings_file_each` visits records in order,
threading the callback context and stopping as soon as a callback returns
false. -/
def settings_file_each {σ : Type} (cb : SettingsRecord → σ → σ × Bool) :
    List SettingsRecord → σ → σ
  | [], s => s
  | r :: rs, s =>
    let p := cb r s
    if p.2 then settings_file_each cb rs p.1 else p.1

/-- Number of records `settings_file_each` visits before it stops: the same
recursion as `settings_file_each`, counting callback invocations. -/
def settings_file_each_visits {σ : Type} (cb : SettingsRecord → σ → σ × Bool) :
    List SettingsRecord → σ → Nat
  | [], _ => 0
  | r :: rs, s =>
    let p := cb r s
    if p.2 then settings_file_each_visits cb rs p.1 + 1 else 1

/-- The settings BlobDB global state: the `s_initialized` flag and the
backing settings file, which either opens successfully (`ok`) or fails each
open with a fixed cause (`error`). -/
structure SBDBState where
  initialized : Bool
  store : Except Status SettingsFile

/-- `settings_blob_db_init`: idempotent, marks the store ready. -/
def settings_blob_db_init (st : SBDBState) : SBDBState :=
  if st.initialized then st else { st with initialized := true }

/-- `settings_blob_db_insert` from settings_blob_db.c: initialized guard,
whitelist gate, then open / `settings_file_set` / close. -/
def settings_blob_db_insert (st : SBDBState) (key v : List Nat) (now : Nat) :
    Status × SBDBState :=
  if !st.initialized then (.eInternal, st)
  else if !prv_is_syncable key then (.eInvalidOperation, st)
  else
    match st.store with
    | .error e => (e, st)
    | .ok f =>
      let p := settings_file_set f key v now
      (p.1, { st with store := .ok p.2 })

/-- `settings_blob_db_get_len` from settings_blob_db.c: initialized guard,
then open / `settings_file_get_len` / close; no whitelist gate. -/
def settings_blob_db_get_len (st : SBDBState) (key : List Nat) :
    Except Status Nat :=
  if !st.initialized then .error .eInternal
  else
    match st.store with
    | .error e => .error e
    | .ok f => settings_file_get_len f key

/-- `settings_blob_db_read` from settings_blob_db.c: initialized guard, then
open / `settings_file_get` / close; no whitelist gate. The returned option
is the out-buffer content. -/
def settings_blob_db_read (st : SBDBState) (key : List Nat) :
    Status × Option (List Nat) :=
  if !st.initialized then (.eInternal, none)
  else
    match st.store with
    | .error e => (e, none)
    | .ok f =>
      match settings_file_get f key with
      | .ok v => (.sSuccess, some v)
      | .error e => (e, none)

/-- `settings_blob_db_delete` from settings_blob_db.c: initialized guard,
whitelist gate, then open / `settings_file_delete` / close. -/
def settings_blob_db_delete (st : SBDBState) (key : List Nat) :
    Status × SBDBState :=
  if !st.initialized then (.eInternal, st)
  else if !prv_is_syncable key then (.eInvalidOperation, st)
  else
    match st.store with
    | .error e => (e, st)
    | .ok f =>
      let p := settings_file_delete f key
      (p.1, { st with store := .ok p.2 })

/-- A dirty-list item: a copy of the record's key and its last-modified
timestamp (`BlobDBDirtyItem`). -/
structure BlobDBDirtyItem where
  key : List Nat
  last_updated : Nat
  deriving DecidableEq, Repr

/-- `prv_build_dirty_list_callback` from settings_blob_db.c: skip records
that are not dirty, skip non-whitelisted keys, otherwise append an item
carrying a copy of the key and the last-modified time; always continue. -/
def prv_build_dirty_list_callback (r : SettingsRecord)
    (ctx : List BlobDBDirtyItem) : List BlobDBDirtyItem × Bool :=
  if !r.dirty then (ctx, true)
  else if !prv_is_syncable r.key then (ctx, true)
  else (ctx ++ [⟨r.key, r.last_modified⟩], true)

/-- `settings_blob_db_get_dirty_list` from settings_blob_db.c: returns NULL
(the empty list) when not initialized or when the open fails; otherwise the
accumulated list of dirty whitelisted items. -/
def settings_blob_db_get_dirty_list (st : SBDBState) : List BlobDBDirtyItem :=
  if !st.initialized then []
  else
    match st.store with
    | .error _ => []
    | .ok f => settings_file_each prv_build_dirty_list_callback f.records []

/-- `settings_blob_db_mark_synced` from settings_blob_db.c. -/
def settings_blob_db_mark_synced (st : SBDBState) (key : List Nat) :
    Status × SBDBState :=
  if !st.initialized then (.eInternal, st)
  else
    match st.store with
    | .error e => (e, st)
    | .ok f =>
      let p := settings_file_mark_synced f key
      (p.1, { st with store := .ok p.2 })

/-- The nested `is_dirty_callback` of `settings_blob_db_is_dirty`: continue
past clean records, stop (returning false) at the first dirty whitelisted
record after setting the found flag, continue past dirty non-whitelisted
records. -/
def is_dirty_callback (r : SettingsRecord) (found : Bool) : Bool × Bool :=
  if !r.dirty then (found, true)
  else if prv_is_syncable r.key then (true, false)
  else (found, true)

/-- `settings_blob_db_is_dirty` from settings_blob_db.c: initialized guard,
open, short-circuiting scan, close; the option is `*is_dirty_out`, written
only on success. -/
def settings_blob_db_is_dirty (st : SBDBState) : Status × Option Bool :=
  if !st.initialized then (.eInternal, none)
  else
    match st.store with
    | .error e => (e, none)
    | .ok f => (.sSuccess, some (settings_file_each is_dirty_callback f.records false))

/-- `settings_blob_db_flush` from settings_blob_db.c: initialized guard,
then a no-op success. -/
def settings_blob_db_flush (st : SBDBState) : Status :=
  if !st.initialized then .eInternal else .sSuccess

/-- A record that is both dirty and whitelisted — the records the dirty
list and the dirty scan select. -/
def dirtySyncable (r : SettingsRecord) : Bool := r.dirty && prv_is_syncable r.key

/-- The dirty item materialized from a record. -/
def toDirtyItem (r : SettingsRecord) : BlobDBDirtyItem := ⟨r.key, r.last_modified⟩

/-- BlobDB database id of the settings store (BlobDBIdSettings = 0x0F). -/
def BlobDBIdSettings : Nat := 15

/-- The prefs sync coordinator state: `s_sync_initialized` and
`s_is_connected` from prefs_sync.c. -/
structure PrefsSyncState where
  sync_initialized : Bool
  is_connected : Bool
  deriving DecidableEq, Repr

/-- `prefs_sync_init` from prefs_sync.c: idempotent; starts disconnected. -/
def prefs_sync_init (st : PrefsSyncState) : PrefsSyncState :=
  if st.sync_initialized then st
  else { sync_initialized := true, is_connected := false }

/-- `prefs_sync_deinit` from prefs_sync.c: idempotent guard; resets both
flags. -/
def prefs_sync_deinit (st : PrefsSyncState) : PrefsSyncState :=
  if !st.sync_initialized then st
  else { sync_initialized := false, is_connected := false }

/-- `prv_connection_handler` from prefs_sync.c: records the event's
connection state and, whenever the event reports the session open, calls
`blob_db_sync_db(BlobDBIdSettings)` (the call only logged afterwards, its
status unused). The second component lists the Sync Engine invocations the
handler makes. -/
def prv_connection_handler (st : PrefsSyncState) (is_open : Bool) :
    PrefsSyncState × List Nat :=
  let st2 := { st with is_connected := is_open }
  if is_open then (st2, [BlobDBIdSettings]) else (st2, [])

/-- `prefs_sync_trigger` from prefs_sync.c: warn and return when not
initialized, warn and return when not connected, otherwise call
`blob_db_sync_db(BlobDBIdSettings)`. The second component lists the Sync
Engine invocations made; the coordinator state is never modified. -/
def prefs_sync_trigger (st : PrefsSyncState) : PrefsSyncState × List Nat :=
  if !st.sync_initialized then (st, [])
  else if !st.is_connected then (st, [])
  else (st, [BlobDBIdSettings])

/-! Concrete states used to exercise the theorems. -/

/-- A dirty whitelisted record under the key "clock24h" (NUL included). -/
def recClock : SettingsRecord := ⟨strBytes "clock24h" ++ [0], [1], 5, true⟩

/-- A dirty record under the non-whitelisted key "btAddress". -/
def recSecret : SettingsRecord := ⟨strBytes "btAddress" ++ [0], [2, 3], 4, true⟩

/-- A clean whitelisted record under the key "textStyle". -/
def recSynced : SettingsRecord := ⟨strBytes "textStyle" ++ [0], [7], 2, false⟩

/-- A settings file holding the three sample records. -/
def fileW : SettingsFile := ⟨[recSecret, recSynced, recClock]⟩

/-- An initialized store over `fileW`. -/
def stW : SBDBState := ⟨true, .ok fileW⟩

/-- An initialized store whose backing file fails every open with cause
`eError 7`. -/
def stBroken : SBDBState := ⟨true, .error (.eError 7)⟩

/-- An initialized store over an empty settings file. -/
def stEmpty : SBDBState := ⟨true, .ok ⟨[]⟩⟩

/-- A store on which `settings_blob_db_init` has not run, over `fileW`. -/
def stUninit : SBDBState := ⟨false, .ok fileW⟩

/-! Helper lemmas about the iteration callbacks and the modelled backing
store. -/

theorem settings_file_each_build (records : List SettingsRecord)
    (acc : List BlobDBDirtyItem) :
    settings_file_each prv_build_dirty_list_callback records acc =
      acc ++ (records.filter dirtySyncable).map toDirtyItem := by
  induction records generalizing acc with
  | nil => simp [settings_file_each]
  | cons r rs ih =>
    by_cases hd : r.dirty <;> by_cases hs : prv_is_syncable r.key <;>
      simp [settings_file_each, prv_build_dirty_list_callback, dirtySyncable,
        toDirtyItem, hd, hs, ih]

theorem settings_file_each_is_dirty (records : List SettingsRecord) :
    settings_file_each is_dirty_callback records false =
      records.any dirtySyncable := by
  induction records with
  | nil => rfl
  | cons r rs ih =>
    by_cases hd : r.dirty <;> by_cases hs : prv_is_syncable r.key <;>
      simp [settings_file_each, is_dirty_callback, dirtySyncable, hd, hs, ih]

theorem settings_file_each_visits_is_dirty (records : List SettingsRecord) :
    settings_file_each_visits is_dirty_callback records false =
      (records.takeWhile (fun r => !dirtySyncable r)).length +
        (if records.any dirtySyncable then 1 else 0) := by
  induction records with
  | nil => rfl
  | cons r rs ih =>
    by_cases hq : dirtySyncable r = true
    · have hd : r.dirty = true := ((Bool.and_eq_true _ _).mp hq).1
      have hs : prv_is_syncable r.key = true := ((Bool.and_eq_true _ _).mp hq).2
      simp [settings_file_each_visits, is_dirty_callback, hd, hs, hq,
        List.takeWhile_cons, List.any_cons]
    · have hq' : dirtySyncable r = false := by
        revert hq
        cases dirtySyncable r <;> simp
      have hcb : is_dirty_callback r false = (false, true) := by
        unfold is_dirty_callback
        unfold dirtySyncable at hq'
        cases hd : r.dirty <;> cases hs : prv_is_syncable r.key <;> simp_all
      simp only [settings_file_each_visits, hcb, if_true,
        List.takeWhile_cons, hq', Bool.not_false, List.any_cons,
        Bool.false_or, List.length_cons, ih]
      omega

theorem settings_file_set_fst (f : SettingsFile) (key v : List Nat)
    (now : Nat) : (settings_file_set f key v now).1 = .sSuccess := by
  unfold settings_file_set
  split <;> rfl

theorem find?_map_set (records : List SettingsRecord) (key v : List Nat)
    (now : Nat) (hany : records.any (fun r => r.key == key) = true) :
    (records.map (fun r =>
        if r.key == key then
          { r with val := v, last_modified := now, dirty := true }
        else r)).find? (fun r => r.key == key) = some ⟨key, v, now, true⟩ := by
  induction records with
  | nil => simp at hany
  | cons r rs ih =>
    by_cases hk : (r.key == key) = true
    · have hhead : (if (r.key == key) = true then
          { r with val := v, last_modified := now, dirty := true }
        else r) = (⟨key, v, now, true⟩ : SettingsRecord) := by
        have hkey : r.key = key := by simpa using hk
        cases r
        simp_all
      rw [List.map_cons, hhead, List.find?_cons_of_pos _ (by simp)]
    · have hk' : (r.key == key) = false := by
        revert hk
        cases r.key == key <;> simp
      have hrs : rs.any (fun r => r.key == key) = true := by
        simpa [List.any_cons, hk'] using hany
      rw [List.map_cons]
      rw [List.find?_cons_of_neg _ (by simp [hk'])]
      exact ih hrs

theorem find?_append_single (records : List SettingsRecord)
    (key v : List Nat) (now : Nat)
    (hall : records.any (fun r => r.key == key) = false) :
    ((records ++ [⟨key, v, now, true⟩] : List SettingsRecord).find?
        (fun r => r.key == key)) = some ⟨key, v, now, true⟩ := by
  induction records with
  | nil => simp [List.find?]
  | cons r rs ih =>
    simp only [List.any_cons, Bool.or_eq_false_iff] at hall
    simp [List.find?_cons, hall.1, ih hall.2]

theorem settings_file_set_find (f : SettingsFile) (key v : List Nat)
    (now : Nat) :
    ((settings_file_set f key v now).2.records.find?
        (fun r => r.key == key)) = some ⟨key, v, now, true⟩ := by
  unfold settings_file_set
  by_cases hany : f.records.any (fun r => r.key == key)
  · simpa [hany] using find?_map_set f.records key v now hany
  · simp only [Bool.not_eq_true] at hany
    simpa [hany] using find?_append_single f.records key v now hany

theorem settings_blob_db_get_dirty_list_ok (st : SBDBState)
    (f : SettingsFile) (hinit : st.initialized = true)
    (hopen : st.store = .ok f) :
    settings_blob_db_get_dirty_list st =
      (f.records.filter dirtySyncable).map toDirtyItem := by
  simp [settings_blob_db_get_dirty_list, hinit, hopen,
    settings_file_each_build]

theorem settings_blob_db_is_dirty_ok (st : SBDBState) (f : SettingsFile)
    (hinit : st.initialized = true) (hopen : st.store = .ok f) :
    settings_blob_db_is_dirty st =
      (.sSuccess, some (f.records.any dirtySyncable)) := by
  simp [settings_blob_db_is_dirty, hinit, hopen, settings_file_each_is_dirty]

theorem settings_blob_db_insert_not_syncable (st : SBDBState)
    (key v : List Nat) (now : Nat) (hinit : st.initialized = true)
    (hwl : prv_is_syncable key = false) :
    settings_blob_db_insert st key v now = (.eInvalidOperation, st) := by
  simp [settings_blob_db_insert, hinit, hwl]

theorem settings_blob_db_delete_not_syncable (st : SBDBState)
    (key : List Nat) (hinit : st.initialized = true)
    (hwl : prv_is_syncable key = false) :
    settings_blob_db_delete st key = (.eInvalidOperation, st) := by
  simp [settings_blob_db_delete, hinit, hwl]

theorem settings_blob_db_insert_ok (st : SBDBState) (f : SettingsFile)
    (key v : List Nat) (now : Nat) (hinit : st.initialized = true)
    (hopen : st.store = .ok f) (hwl : prv_is_syncable key = true) :
    settings_blob_db_insert st key v now =
      (.sSuccess, { st with store := .ok (settings_file_set f key v now).2 }) := by
  simp [settings_blob_db_insert, hinit, hopen, hwl, settings_file_set_fst]

theorem settings_blob_db_read_found (st : SBDBState) (f : SettingsFile)
    (key : List Nat) (r : SettingsRecord) (hinit : st.initialized = true)
    (hopen : st.store = .ok f)
    (hfind : f.records.find? (fun x => x.key == key) = some r) :
    settings_blob_db_read st key = (.sSuccess, some r.val) := by
  simp [settings_blob_db_read, hinit, hopen, settings_file_get, hfind]

/-- Every whitelisted name is syncable exactly with its NUL terminator: the
bare name bytes are rejected, the bytes followed by the NUL accepted. -/
theorem whitelist_nul_facts :
    (∀ name ∈ s_syncable_settings, prv_is_syncable (strBytes name) = false) ∧
    (∀ name ∈ s_syncable_settings,
      prv_is_syncable (strBytes name ++ [0]) = true) := by
  decide

/-! The claims. -/

/-- Claim C1: after init and a successful open, `settings_blob_db_is_dirty`
succeeds and reports true iff at least one record that is both dirty and
whitelisted exists (a dirty non-whitelisted record never makes it report
true), and the scan stops at the first dirty whitelisted record: it visits
exactly the records up to and including the first one that is dirty and
whitelisted, or all of them when none is. -/
theorem c1_is_dirty_iff_dirty_whitelisted (st : SBDBState) (f : SettingsFile)
    (hinit : st.initialized = true) (hopen : st.store = .ok f) :
    settings_blob_db_is_dirty st =
      (.sSuccess, some (f.records.any dirtySyncable)) ∧
    (f.records.any dirtySyncable = true ↔
      ∃ r ∈ f.records, r.dirty = true ∧ prv_is_syncable r.key = true) ∧
    settings_file_each_visits is_dirty_callback f.records false =
      (f.records.takeWhile (fun r => !dirtySyncable r)).length +
        (if f.records.any dirtySyncable then 1 else 0) := by
  refine ⟨settings_blob_db_is_dirty_ok st f hinit hopen, ?_,
    settings_file_each_visits_is_dirty f.records⟩
  simp [List.any_eq_true, dirtySyncable]

/-- Claim C1 witness: on a store holding a dirty non-whitelisted record, a
clean whitelisted record and a dirty whitelisted record, is_dirty reports
true; on a store holding only the dirty non-whitelisted record it reports
false. -/
theorem c1_is_dirty_iff_dirty_whitelisted_witness :
    stW.initialized = true ∧ stW.store = .ok fileW ∧
    settings_blob_db_is_dirty stW = (.sSuccess, some true) ∧
    settings_blob_db_is_dirty ⟨true, .ok ⟨[recSecret]⟩⟩ =
      (.sSuccess, some false) := by
  have h1 := (c1_is_dirty_iff_dirty_whitelisted stW fileW rfl rfl).1
  have h2 := (c1_is_dirty_iff_dirty_whitelisted ⟨true, .ok ⟨[recSecret]⟩⟩
    ⟨[recSecret]⟩ rfl rfl).1
  refine ⟨rfl, rfl, ?_, ?_⟩
  · rw [h1]; decide
  · rw [h2]; decide

/-- Claim C2: after init and a successful open, the dirty list is exactly
the dirty whitelisted records in the backing store's iteration order, each
item carrying a copy of the record's key and its last-modified timestamp;
when the backing store's keys are pairwise distinct, the list has no
duplicate keys. -/
theorem c2_get_dirty_list_exact (st : SBDBState) (f : SettingsFile)
    (hinit : st.initialized = true) (hopen : st.store = .ok f)
    (hkeys : f.records.Pairwise (fun a b => a.key ≠ b.key)) :
    settings_blob_db_get_dirty_list st =
      (f.records.filter dirtySyncable).map toDirtyItem ∧
    (settings_blob_db_get_dirty_list st).Pairwise
      (fun a b => a.key ≠ b.key) := by
  have h := settings_blob_db_get_dirty_list_ok st f hinit hopen
  refine ⟨h, ?_⟩
  rw [h, List.pairwise_map]
  exact (hkeys.sublist (List.filter_sublist _)).imp (fun hab => hab)

/-- Claim C2 witness: on the three-record sample store, the dirty list is
the single item for the dirty whitelisted "clock24h" record, with its
timestamp. -/
theorem c2_get_dirty_list_exact_witness :
    stW.initialized = true ∧
    settings_blob_db_get_dirty_list stW =
      [⟨strBytes "clock24h" ++ [0], 5⟩] := by
  have h := (c2_get_dirty_list_exact stW fileW rfl rfl (by decide)).1
  refine ⟨rfl, ?_⟩
  rw [h]; decide

/-- Claim C3: after init, a non-whitelisted key makes both insert and delete
fail with the invalid-operation error and leave the state untouched; since
the equations hold for every state — in particular when every open of the
backing store would fail — the backing store is not even opened. -/
theorem c3_non_whitelisted_rejected (st : SBDBState) (key v : List Nat)
    (now : Nat) (hinit : st.initialized = true)
    (hwl : prv_is_syncable key = false) :
    settings_blob_db_insert st key v now = (.eInvalidOperation, st) ∧
    settings_blob_db_delete st key = (.eInvalidOperation, st) :=
  ⟨settings_blob_db_insert_not_syncable st key v now hinit hwl,
   settings_blob_db_delete_not_syncable st key hinit hwl⟩

/-- Claim C3 witness: inserting under the non-whitelisted key "btAddress"
on a store whose backing open would fail still yields the
invalid-operation error and the unchanged state — the store is never
opened. -/
theorem c3_non_whitelisted_rejected_witness :
    stBroken.initialized = true ∧
    prv_is_syncable (strBytes "btAddress" ++ [0]) = false ∧
    settings_blob_db_insert stBroken (strBytes "btAddress" ++ [0]) [2] 9 =
      (.eInvalidOperation, stBroken) ∧
    settings_blob_db_delete stBroken (strBytes "btAddress" ++ [0]) =
      (.eInvalidOperation, stBroken) := by
  have h := c3_non_whitelisted_rejected stBroken (strBytes "btAddress" ++ [0])
    [2] 9 rfl (by decide)
  exact ⟨rfl, by decide, h.1, h.2⟩

/-- Claim C4 counterexample: with the backing open failing with cause
`eError 7`, `settings_blob_db_get_dirty_list` returns the NULL/empty list —
exactly the value it returns on a successfully opened empty store — so for
this operation the failure is not propagated to the caller with its
original cause. -/
theorem c4_open_failure_counterexample :
    stBroken.store = .error (.eError 7) ∧
    settings_blob_db_get_dirty_list stBroken = [] ∧
    settings_blob_db_get_dirty_list stEmpty = [] :=
  ⟨rfl, rfl, rfl⟩

/-- Claim C4 (amended): after init, when the backing open fails with cause
`e`, insert, read, get_len, delete, mark_synced and is_dirty each return
that very cause unchanged, with no state change and no retry;
`settings_blob_db_get_dirty_list` alone returns the NULL/empty list,
discarding the cause. -/
theorem c4_open_failure_propagation (st : SBDBState) (e : Status)
    (key v : List Nat) (now : Nat) (hinit : st.initialized = true)
    (hopen : st.store = .error e) (hwl : prv_is_syncable key = true) :
    settings_blob_db_insert st key v now = (e, st) ∧
    settings_blob_db_read st key = (e, none) ∧
    settings_blob_db_get_len st key = .error e ∧
    settings_blob_db_delete st key = (e, st) ∧
    settings_blob_db_mark_synced st key = (e, st) ∧
    settings_blob_db_is_dirty st = (e, none) ∧
    settings_blob_db_get_dirty_list st = [] := by
  refine ⟨?_, ?_, ?_, ?_, ?_, ?_, ?_⟩ <;>
    simp [settings_blob_db_insert, settings_blob_db_read,
      settings_blob_db_get_len, settings_blob_db_delete,
      settings_blob_db_mark_synced, settings_blob_db_is_dirty,
      settings_blob_db_get_dirty_list, hinit, hopen, hwl]

/-- Claim C4 witness: on the store whose opens fail with `eError 7`, insert
under the whitelisted key "clock24h" and is_dirty both surface `eError 7`
itself. -/
theorem c4_open_failure_propagation_witness :
    stBroken.initialized = true ∧
    stBroken.store = .error (.eError 7) ∧
    prv_is_syncable (strBytes "clock24h" ++ [0]) = true ∧
    settings_blob_db_insert stBroken (strBytes "clock24h" ++ [0]) [1] 9 =
      (.eError 7, stBroken) ∧
    settings_blob_db_is_dirty stBroken = (.eError 7, none) := by
  have h := c4_open_failure_propagation stBroken (.eError 7)
    (strBytes "clock24h" ++ [0]) [1] 9 rfl rfl (by decide)
  exact ⟨rfl, rfl, by decide, h.1, h.2.2.2.2.2.1⟩

/-- Claim C5 counterexample: a connect event delivered while the stored
state is already Connected still emits a sync attempt for the Settings
store id — the handler does not gate the call on a Disconnected→Connected
transition. -/
theorem c5_handler_counterexample :
    (prv_connection_handler ⟨true, true⟩ true).2 = [BlobDBIdSettings] := rfl

/-- Claim C5 (amended): the handler sets the stored connection state to the
event's value and emits exactly one sync attempt for the Settings store id
on every event reporting the session open — regardless of the previous
connection state — and no sync attempt on a disconnect event, where only
the connection-state update happens. -/
theorem c5_handler_emits_on_every_connect (st : PrefsSyncState)
    (is_open : Bool) :
    prv_connection_handler st is_open =
      ({ st with is_connected := is_open },
        if is_open then [BlobDBIdSettings] else []) := by
  unfold prv_connection_handler
  cases is_open <;> simp

/-- Claim C6: for a whitelisted key, insert succeeds, a subsequent read
returns the inserted value, and the key appears in the dirty list (as an
item with the write's timestamp) with the stored record's dirty flag set. -/
theorem c6_insert_read_dirty (st : SBDBState) (f : SettingsFile)
    (key v : List Nat) (now : Nat) (hinit : st.initialized = true)
    (hopen : st.store = .ok f) (hwl : prv_is_syncable key = true) :
    (settings_blob_db_insert st key v now).1 = .sSuccess ∧
    settings_blob_db_read (settings_blob_db_insert st key v now).2 key =
      (.sSuccess, some v) ∧
    (⟨key, now⟩ : BlobDBDirtyItem) ∈
      settings_blob_db_get_dirty_list
        (settings_blob_db_insert st key v now).2 ∧
    (∃ f2, (settings_blob_db_insert st key v now).2.store = .ok f2 ∧
      f2.records.find? (fun r => r.key == key) =
        some ⟨key, v, now, true⟩) := by
  have hins := settings_blob_db_insert_ok st f key v now hinit hopen hwl
  set f2 := (settings_file_set f key v now).2 with hf2
  have hsnd : (settings_blob_db_insert st key v now).2 =
      { st with store := .ok f2 } := by rw [hins]
  have hfind := settings_file_set_find f key v now
  have hinit2 : ({ st with store := .ok f2 } : SBDBState).initialized = true :=
    hinit
  have hread := settings_blob_db_read_found { st with store := .ok f2 } f2 key
    ⟨key, v, now, true⟩ hinit2 rfl hfind
  refine ⟨by rw [hins], ?_, ?_, ⟨f2, by rw [hsnd], hfind⟩⟩
  · rw [hsnd, hread]
  · rw [hsnd, settings_blob_db_get_dirty_list_ok _ f2 hinit2 rfl]
    have hmem : (⟨key, v, now, true⟩ : SettingsRecord) ∈ f2.records :=
      List.mem_of_find?_eq_some hfind
    have hq : dirtySyncable ⟨key, v, now, true⟩ = true := by
      simp [dirtySyncable, hwl]
    exact List.mem_map_of_mem toDirtyItem (List.mem_filter.mpr ⟨hmem, hq⟩)

/-- Claim C6 witness: inserting [3] under the whitelisted key
"timezoneSource" into the sample store, the value reads back and the key
appears in the dirty list with the write's timestamp. -/
theorem c6_insert_read_dirty_witness :
    stW.initialized = true ∧
    prv_is_syncable (strBytes "timezoneSource" ++ [0]) = true ∧
    settings_blob_db_read
      (settings_blob_db_insert stW (strBytes "timezoneSource" ++ [0]) [3] 9).2
      (strBytes "timezoneSource" ++ [0]) = (.sSuccess, some [3]) ∧
    (⟨strBytes "timezoneSource" ++ [0], 9⟩ : BlobDBDirtyItem) ∈
      settings_blob_db_get_dirty_list
        (settings_blob_db_insert stW
          (strBytes "timezoneSource" ++ [0]) [3] 9).2 := by
  have h := c6_insert_read_dirty stW fileW (strBytes "timezoneSource" ++ [0])
    [3] 9 rfl rfl (by decide)
  exact ⟨rfl, by decide, h.2.1, h.2.2.1⟩

/-- Claim C7: read and get_len are not whitelist-gated: after init and a
successful open, any key with a record in the backing store — whitelisted or
not — is read back with its stored value and length, and a key without a
record yields the backing store's not-found indication. -/
theorem c7_read_get_len_ungated (st : SBDBState) (f : SettingsFile)
    (key : List Nat) (hinit : st.initialized = true)
    (hopen : st.store = .ok f) :
    (∀ r, f.records.find? (fun x => x.key == key) = some r →
      settings_blob_db_read st key = (.sSuccess, some r.val) ∧
      settings_blob_db_get_len st key = .ok r.val.length) ∧
    (f.records.find? (fun x => x.key == key) = none →
      settings_blob_db_read st key = (.eDoesNotExist, none) ∧
      settings_blob_db_get_len st key = .error .eDoesNotExist) := by
  constructor
  · intro r hfind
    refine ⟨settings_blob_db_read_found st f key r hinit hopen hfind, ?_⟩
    simp [settings_blob_db_get_len, hinit, hopen, settings_file_get_len,
      hfind]
  · intro hfind
    constructor <;>
      simp [settings_blob_db_read, settings_blob_db_get_len, hinit, hopen,
        settings_file_get, settings_file_get_len, hfind]

/-- Claim C7 witness: the record under the non-whitelisted key "btAddress"
present in the sample store is read back with value [2, 3] and length 2. -/
theorem c7_read_get_len_ungated_witness :
    stW.initialized = true ∧
    prv_is_syncable recSecret.key = false ∧
    settings_blob_db_read stW recSecret.key = (.sSuccess, some [2, 3]) ∧
    settings_blob_db_get_len stW recSecret.key = .ok 2 := by
  have h := (c7_read_get_len_ungated stW fileW recSecret.key rfl rfl).1
    recSecret (by decide)
  exact ⟨rfl, by decide, h.1, h.2⟩

/-- Claim C8 counterexample: before init, `settings_blob_db_get_dirty_list`
does not fail with the internal-state error: it returns the NULL/empty
list, the very value an initialized store with no dirty records returns. -/
theorem c8_before_init_counterexample :
    stUninit.initialized = false ∧
    settings_blob_db_get_dirty_list stUninit = [] ∧
    settings_blob_db_get_dirty_list stEmpty = [] :=
  ⟨rfl, rfl, rfl⟩

/-- Claim C8 (amended): every operation invoked before init performs no
state change; insert, read, get_len, delete, mark_synced, is_dirty and
flush fail with the internal-state error, while get_dirty_list returns the
NULL/empty list instead of an error code. -/
theorem c8_before_init (st : SBDBState) (key v : List Nat) (now : Nat)
    (h : st.initialized = false) :
    settings_blob_db_insert st key v now = (.eInternal, st) ∧
    settings_blob_db_read st key = (.eInternal, none) ∧
    settings_blob_db_get_len st key = .error .eInternal ∧
    settings_blob_db_delete st key = (.eInternal, st) ∧
    settings_blob_db_get_dirty_list st = [] ∧
    settings_blob_db_mark_synced st key = (.eInternal, st) ∧
    settings_blob_db_is_dirty st = (.eInternal, none) ∧
    settings_blob_db_flush st = .eInternal := by
  refine ⟨?_, ?_, ?_, ?_, ?_, ?_, ?_, ?_⟩ <;>
    simp [settings_blob_db_insert, settings_blob_db_read,
      settings_blob_db_get_len, settings_blob_db_delete,
      settings_blob_db_get_dirty_list, settings_blob_db_mark_synced,
      settings_blob_db_is_dirty, settings_blob_db_flush, h]

/-- Claim C8 witness: on the sample store before init, insert fails with
the internal-state error leaving the state unchanged, and flush fails the
same way. -/
theorem c8_before_init_witness :
    stUninit.initialized = false ∧
    settings_blob_db_insert stUninit (strBytes "clock24h" ++ [0]) [1] 9 =
      (.eInternal, stUninit) ∧
    settings_blob_db_flush stUninit = .eInternal := by
  have h := c8_before_init stUninit (strBytes "clock24h" ++ [0]) [1] 9 rfl
  exact ⟨rfl, h.1, h.2.2.2.2.2.2.2⟩

/-- Claim C9: `prefs_sync_trigger` while not initialized, or while
initialized but not connected, returns with no Sync Engine invocation and
the coordinator state unchanged (the trigger path never touches the record
store, so no dirty flag can change); while initialized and connected it
emits exactly the invocation the connectivity handler emits on a connect
event — one call for the Settings store id. -/
theorem c9_trigger_spec (st : PrefsSyncState) :
    (st.sync_initialized = false → prefs_sync_trigger st = (st, [])) ∧
    (st.is_connected = false → prefs_sync_trigger st = (st, [])) ∧
    (st.sync_initialized = true → st.is_connected = true →
      prefs_sync_trigger st = (st, [BlobDBIdSettings]) ∧
      (prefs_sync_trigger st).2 = (prv_connection_handler st true).2) := by
  refine ⟨fun h => ?_, fun h => ?_, fun h1 h2 => ⟨?_, ?_⟩⟩
  · simp [prefs_sync_trigger, h]
  · simp [prefs_sync_trigger, h]
  · simp [prefs_sync_trigger, h1, h2]
  · simp [prefs_sync_trigger, prv_connection_handler, h1, h2]

/-- Claim C9 witness: trigger does nothing before init and while
disconnected, and emits the single Settings sync call when initialized and
connected. -/
theorem c9_trigger_spec_witness :
    prefs_sync_trigger ⟨false, true⟩ = (⟨false, true⟩, []) ∧
    prefs_sync_trigger ⟨true, false⟩ = (⟨true, false⟩, []) ∧
    prefs_sync_trigger ⟨true, true⟩ = (⟨true, true⟩, [BlobDBIdSettings]) :=
  ⟨(c9_trigger_spec ⟨false, true⟩).1 rfl,
   (c9_trigger_spec ⟨true, false⟩).2.1 rfl,
   ((c9_trigger_spec ⟨true, true⟩).2.2 rfl rfl).1⟩

/-- Claim C10: whitelist membership compares the key length against the
name's length including its NUL terminator: for every whitelisted name, the
key of the bare name bytes (length strlen(name)) is not syncable and is
rejected by insert and delete with the invalid-operation error, while the
same bytes followed by the NUL are syncable. -/
theorem c10_whitelist_requires_nul (st : SBDBState) (v : List Nat)
    (now : Nat) (name : String) (hinit : st.initialized = true)
    (hmem : name ∈ s_syncable_settings) :
    prv_is_syncable (strBytes name) = false ∧
    prv_is_syncable (strBytes name ++ [0]) = true ∧
    settings_blob_db_insert st (strBytes name) v now =
      (.eInvalidOperation, st) ∧
    settings_blob_db_delete st (strBytes name) =
      (.eInvalidOperation, st) := by
  have h1 := whitelist_nul_facts.1 name hmem
  have h2 := whitelist_nul_facts.2 name hmem
  exact ⟨h1, h2,
    settings_blob_db_insert_not_syncable st _ v now hinit h1,
    settings_blob_db_delete_not_syncable st _ hinit h1⟩

/-- Claim C10 witness: the key "clock24h" without its NUL terminator is
rejected by insert with the invalid-operation error, though "clock24h" is
whitelisted. -/
theorem c10_whitelist_requires_nul_witness :
    stW.initialized = true ∧
    "clock24h" ∈ s_syncable_settings ∧
    prv_is_syncable (strBytes "clock24h") = false ∧
    settings_blob_db_insert stW (strBytes "clock24h") [1] 9 =
      (.eInvalidOperation, stW) := by
  have h := c10_whitelist_requires_nul stW [1] 9 "clock24h" rfl (by decide)
  exact ⟨rfl, by decide, h.1, h.2.2.1⟩

end PebbleSync
